import Mathlib

/-!
Verification development for the atlas deferred renderer.

The definitions below are a shallow embedding of the Rust sources:
* `src/atlas_core/camera.rs` (camera state, `update`, `handle_event`,
  `get_uniform_buffer`),
* `src/atlas_core/system.rs` and `src/atlas_core/mod.rs` (`FrameEndFuture`,
  `System::finish_frame`),
* `src/atlas_core/renderer/deferred.rs` (`window_size_dependent_setup`,
  `DeferredRenderPass::handle_recreate_swapchain`),
* `src/atlas_core/renderer/shadow_map.rs` (`init_render_pass`, `image_setup`),
* `src/atlas_core/mesh.rs` (`load_material`, `load_default_texture`,
  `load_gltf`),
* `src/main.rs` (the fixed-orbit projection set-up).

Scalar arithmetic is modelled over an arbitrary field `α` (instantiated with
`ℚ` for concrete evaluations); the transcendental operations used by `cgmath`
(`sqrt`, `sin`, `cos`, `tan`) are supplied by a `RealOps` record so that every
definition stays executable.  Rust functions that can panic are embedded as
`Option`-valued functions, `none` marking the panic.
-/

namespace Atlas

/-- The transcendental operations of `f32` used by `cgmath`, kept abstract so
that the embedding is executable over any field. -/
structure RealOps (α : Type) where
  sqrt : α → α
  sin : α → α
  cos : α → α
  tan : α → α
  pi : α

/-- `cgmath::Vector3` (also used for `Point3`). -/
structure Vec3 (α : Type) where
  x : α
  y : α
  z : α
deriving DecidableEq, Repr

variable {α : Type} [Field α]

def Vec3.add (a b : Vec3 α) : Vec3 α :=
  ⟨a.x + b.x, a.y + b.y, a.z + b.z⟩

def Vec3.sub (a b : Vec3 α) : Vec3 α :=
  ⟨a.x - b.x, a.y - b.y, a.z - b.z⟩

def Vec3.smul (s : α) (v : Vec3 α) : Vec3 α :=
  ⟨s * v.x, s * v.y, s * v.z⟩

def Vec3.dot (a b : Vec3 α) : α :=
  a.x * b.x + a.y * b.y + a.z * b.z

/-- `cgmath` cross product. -/
def Vec3.cross (a b : Vec3 α) : Vec3 α :=
  ⟨a.y * b.z - a.z * b.y, a.z * b.x - a.x * b.z, a.x * b.y - a.y * b.x⟩

/-- `cgmath::Vector3::unit_y()`. -/
def Vec3.unitY : Vec3 α := ⟨0, 1, 0⟩

/-- `cgmath::InnerSpace::normalize`: `v / |v|`. -/
def Vec3.normalize (ops : RealOps α) (v : Vec3 α) : Vec3 α :=
  Vec3.smul (1 / ops.sqrt (Vec3.dot v v)) v

/-- `cgmath::Matrix3`, stored row/column indexed (`mRC` is row `R`, column
`C`). -/
structure Mat3 (α : Type) where
  m00 : α
  m01 : α
  m02 : α
  m10 : α
  m11 : α
  m12 : α
  m20 : α
  m21 : α
  m22 : α
deriving DecidableEq, Repr

def Mat3.mulVec (m : Mat3 α) (v : Vec3 α) : Vec3 α :=
  ⟨m.m00 * v.x + m.m01 * v.y + m.m02 * v.z,
   m.m10 * v.x + m.m11 * v.y + m.m12 * v.z,
   m.m20 * v.x + m.m21 * v.y + m.m22 * v.z⟩

def Mat3.mul (a b : Mat3 α) : Mat3 α :=
  ⟨a.m00 * b.m00 + a.m01 * b.m10 + a.m02 * b.m20,
   a.m00 * b.m01 + a.m01 * b.m11 + a.m02 * b.m21,
   a.m00 * b.m02 + a.m01 * b.m12 + a.m02 * b.m22,
   a.m10 * b.m00 + a.m11 * b.m10 + a.m12 * b.m20,
   a.m10 * b.m01 + a.m11 * b.m11 + a.m12 * b.m21,
   a.m10 * b.m02 + a.m11 * b.m12 + a.m12 * b.m22,
   a.m20 * b.m00 + a.m21 * b.m10 + a.m22 * b.m20,
   a.m20 * b.m01 + a.m21 * b.m11 + a.m22 * b.m21,
   a.m20 * b.m02 + a.m21 * b.m12 + a.m22 * b.m22⟩

/-- `cgmath::Matrix3::from_axis_angle(axis, angle)` (Rodrigues rotation,
transcribed column by column from cgmath, which is column-major). -/
def Mat3.fromAxisAngle (ops : RealOps α) (axis : Vec3 α) (angle : α) : Mat3 α :=
  let s := ops.sin angle
  let c := ops.cos angle
  let k := 1 - c
  ⟨k * axis.x * axis.x + c,
   k * axis.x * axis.y - s * axis.z,
   k * axis.x * axis.z + s * axis.y,
   k * axis.x * axis.y + s * axis.z,
   k * axis.y * axis.y + c,
   k * axis.y * axis.z - s * axis.x,
   k * axis.x * axis.z - s * axis.y,
   k * axis.y * axis.z + s * axis.x,
   k * axis.z * axis.z + c⟩

/-- `cgmath::Matrix4`, row/column indexed. -/
structure Mat4 (α : Type) where
  m00 : α
  m01 : α
  m02 : α
  m03 : α
  m10 : α
  m11 : α
  m12 : α
  m13 : α
  m20 : α
  m21 : α
  m22 : α
  m23 : α
  m30 : α
  m31 : α
  m32 : α
  m33 : α
deriving DecidableEq, Repr

/-- `cgmath::Matrix4::from_scale(s)`: `diag(s, s, s, 1)`. -/
def Mat4.fromScale (s : α) : Mat4 α :=
  ⟨s, 0, 0, 0,
   0, s, 0, 0,
   0, 0, s, 0,
   0, 0, 0, 1⟩

def Mat4.mul (a b : Mat4 α) : Mat4 α :=
  ⟨a.m00 * b.m00 + a.m01 * b.m10 + a.m02 * b.m20 + a.m03 * b.m30,
   a.m00 * b.m01 + a.m01 * b.m11 + a.m02 * b.m21 + a.m03 * b.m31,
   a.m00 * b.m02 + a.m01 * b.m12 + a.m02 * b.m22 + a.m03 * b.m32,
   a.m00 * b.m03 + a.m01 * b.m13 + a.m02 * b.m23 + a.m03 * b.m33,
   a.m10 * b.m00 + a.m11 * b.m10 + a.m12 * b.m20 + a.m13 * b.m30,
   a.m10 * b.m01 + a.m11 * b.m11 + a.m12 * b.m21 + a.m13 * b.m31,
   a.m10 * b.m02 + a.m11 * b.m12 + a.m12 * b.m22 + a.m13 * b.m32,
   a.m10 * b.m03 + a.m11 * b.m13 + a.m12 * b.m23 + a.m13 * b.m33,
   a.m20 * b.m00 + a.m21 * b.m10 + a.m22 * b.m20 + a.m23 * b.m30,
   a.m20 * b.m01 + a.m21 * b.m11 + a.m22 * b.m21 + a.m23 * b.m31,
   a.m20 * b.m02 + a.m21 * b.m12 + a.m22 * b.m22 + a.m23 * b.m32,
   a.m20 * b.m03 + a.m21 * b.m13 + a.m22 * b.m23 + a.m23 * b.m33,
   a.m30 * b.m00 + a.m31 * b.m10 + a.m32 * b.m20 + a.m33 * b.m30,
   a.m30 * b.m01 + a.m31 * b.m11 + a.m32 * b.m21 + a.m33 * b.m31,
   a.m30 * b.m02 + a.m31 * b.m12 + a.m32 * b.m22 + a.m33 * b.m32,
   a.m30 * b.m03 + a.m31 * b.m13 + a.m32 * b.m23 + a.m33 * b.m33⟩

/-- `cgmath::Matrix4::look_to_rh(eye, dir, up)`, transcribed column by
column. -/
def Mat4.lookToRh (ops : RealOps α) (eye dir up : Vec3 α) : Mat4 α :=
  let f := Vec3.normalize ops dir
  let s := Vec3.normalize ops (Vec3.cross f up)
  let u := Vec3.cross s f
  ⟨s.x, s.y, s.z, -(Vec3.dot eye s),
   u.x, u.y, u.z, -(Vec3.dot eye u),
   -f.x, -f.y, -f.z, Vec3.dot eye f,
   0, 0, 0, 1⟩

/-- `cgmath::perspective(Rad(fovy), aspect, near, far)`:
`f = cot(fovy / 2)`, columns as in cgmath's `PerspectiveFov` conversion. -/
def Mat4.perspective (ops : RealOps α) (fovy aspect near far : α) : Mat4 α :=
  let f := 1 / ops.tan (fovy / 2)
  ⟨f / aspect, 0, 0, 0,
   0, f, 0, 0,
   0, 0, (far + near) / (near - far), (2 * far * near) / (near - far),
   0, 0, -1, 0⟩

/-- The `Camera` struct of `camera.rs`. -/
structure Camera (α : Type) where
  position : Vec3 α
  forward : Vec3 α
  right : Vec3 α
  up : Vec3 α
  aspect_ratio : α
  proj : Mat4 α
  view : Mat4 α
  world : Mat4 α
  world_view : Mat4 α
  mouse_rotation_start_coord : α × α
deriving DecidableEq, Repr

/-- `Camera::update` (camera.rs lines 35-46): recomputes `proj` from a 90°
vertical field of view (`FRAC_PI_2`), the current aspect ratio and the
near/far planes `(5.0, 10000.0)`, recomputes `view` with `look_to_rh`, and
sets `world_view = view * world`. -/
def Camera.update (ops : RealOps α) (c : Camera α) : Camera α :=
  let proj := Mat4.perspective ops (ops.pi / 2) c.aspect_ratio 5 10000
  let view := Mat4.lookToRh ops c.position c.forward c.up
  { c with proj := proj, view := view, world_view := Mat4.mul view c.world }

/-- `construct_camera` (camera.rs lines 48-66). -/
def construct_camera : Camera α :=
  let forward : Vec3 α := ⟨0, 0, 1⟩
  let up : Vec3 α := ⟨0, 1, 0⟩
  { position := ⟨0, 0, -3⟩
    forward := forward
    up := up
    right := Vec3.cross forward up
    aspect_ratio := 1
    proj := Mat4.fromScale 1
    view := Mat4.fromScale 1
    world := Mat4.fromScale 1
    world_view := Mat4.fromScale 1
    mouse_rotation_start_coord := (0, 0) }

/-- The fields of `WinitInputHelper` that `Camera::handle_event` reads,
pre-sampled for one event-loop iteration. -/
structure InputState (α : Type) where
  held_shift : Bool
  held_control : Bool
  key_w : Bool
  key_s : Bool
  key_a : Bool
  key_d : Bool
  key_e : Bool
  key_f : Bool
  mouse_pressed_right : Bool
  mouse_held_right : Bool
  mouse : Option (α × α)
  mouse_diff : α × α
deriving DecidableEq, Repr

/-- `CameraInputLogic::handle_event` for `Camera` (camera.rs lines 73-119),
transcribed statement by statement. -/
def Camera.handleEvent (ops : RealOps α) (input : InputState α) (c : Camera α) :
    Camera α :=
  let move_speed : α := if input.held_shift then 1 * 5 else 1
  let rotate_speed : α := 5 / 1000
  let p0 := c.position
  let p1 := if input.key_w then Vec3.add p0 (Vec3.smul move_speed c.forward) else p0
  let p2 := if input.key_s then Vec3.sub p1 (Vec3.smul move_speed c.forward) else p1
  let p3 := if input.key_a then Vec3.sub p2 (Vec3.smul move_speed c.right) else p2
  let p4 := if input.key_d then Vec3.add p3 (Vec3.smul move_speed c.right) else p3
  let p5 := if input.key_e then Vec3.sub p4 (Vec3.smul move_speed c.up) else p4
  let p6 := if input.key_f then Vec3.add p5 (Vec3.smul move_speed c.up) else p5
  let start :=
    if input.mouse_pressed_right then input.mouse.getD (0, 0)
    else c.mouse_rotation_start_coord
  if input.mouse_held_right then
    let diff := input.mouse_diff
    let transform :=
      Mat3.mul (Mat3.fromAxisAngle ops c.up (-diff.1 * rotate_speed))
        (Mat3.fromAxisAngle ops c.right (diff.2 * rotate_speed))
    let forward := Vec3.normalize ops (Mat3.mulVec transform c.forward)
    let up :=
      if input.held_control then Vec3.normalize ops (Mat3.mulVec transform c.up)
      else Vec3.unitY
    let right := Vec3.cross forward up
    { c with
      position := p6
      mouse_rotation_start_coord := start
      forward := forward
      up := up
      right := right }
  else
    { c with position := p6, mouse_rotation_start_coord := start }

/-- The `CameraData` uniform record built by `Camera::get_uniform_buffer`. -/
structure CameraData (α : Type) where
  world_view : Mat4 α
  world : Mat4 α
  view : Mat4 α
  proj : Mat4 α
deriving DecidableEq, Repr

/-- `Camera::get_uniform_buffer` (camera.rs lines 123-144), without the GPU
buffer allocation: sets the aspect ratio from the swapchain extent, stores
the `world` matrix, runs `update`, and packages the uniform payload. -/
def Camera.getUniformBuffer (ops : RealOps α) (c : Camera α)
    (extent : Nat × Nat) (world : Mat4 α) : Camera α × CameraData α :=
  let c1 := { c with
    aspect_ratio := (extent.1 : α) / (extent.2 : α)
    world := world }
  let c2 := Camera.update ops c1
  (c2, ⟨c2.world_view, c2.world, c2.view, c2.proj⟩)

/-- The projection built by the fixed-orbit variant in `main.rs`
(lines 188-193): `perspective(Rad(FRAC_PI_2), aspect_ratio, 0.01, 100.0)`. -/
def mainOrbitProj (ops : RealOps α) (aspect : α) : Mat4 α :=
  Mat4.perspective ops (ops.pi / 2) aspect (1 / 100) 100

/-- A concrete interpretation of the transcendental operations over `ℚ`,
used to evaluate the embedding on concrete inputs. -/
def qOps : RealOps ℚ :=
  { sqrt := fun x => x
    sin := fun x => x
    cos := fun x => x
    tan := fun _ => 1
    pi := 355 / 113 }

/-- One mutation of the camera state: an event-loop iteration's
`handle_event` with an arbitrary sampled input, or an `update` call. -/
inductive CameraStep (ops : RealOps α) : Camera α → Camera α → Prop where
  | handle (input : InputState α) (c : Camera α) :
      CameraStep ops c (Camera.handleEvent ops input c)
  | update (c : Camera α) : CameraStep ops c (Camera.update ops c)

/-- Camera states reachable from `construct_camera` by any sequence of
`handle_event` and `update` calls. -/
inductive CameraReachable (ops : RealOps α) : Camera α → Prop where
  | init : CameraReachable ops construct_camera
  | step {c c2 : Camera α} : CameraReachable ops c → CameraStep ops c c2 →
      CameraReachable ops c2

/-! ## Frame synchronizer (`system.rs` / `mod.rs`) -/

/-- The `FrameEndFuture` enum of `egui.rs` / `main.rs`: either a concrete
prior frame's fence-signal future (tagged here by a frame id) or the boxed,
already-signalled `sync::now` future. -/
inductive FrameEndFuture where
  | fenceSignalFuture (frame : Nat)
  | boxedFuture
deriving DecidableEq, Repr

/-- `FrameEndFuture::now(device)`: the already-signalled placeholder. -/
def FrameEndFuture.now : FrameEndFuture := .boxedFuture

/-- The outcome of `then_signal_fence_and_flush()` at the end of
`System::finish_frame`: success (a fresh fence, tagged by a frame id),
`FlushError::OutOfDate`, or any other flush error. -/
inductive FlushOutcome where
  | ok (newFrame : Nat)
  | outOfDate
  | other (err : String)
deriving DecidableEq, Repr

/-- The fields of `System` that `finish_frame` touches, plus the log written
by its `println!`. -/
structure FrameSyncState where
  previous_frame_end : Option FrameEndFuture
  recreate_swapchain : Bool
  log : List String
deriving DecidableEq, Repr

/-- `System::finish_frame` (system.rs lines 231-268, identical in mod.rs
lines 229-266), with the submit/present/flush outcome supplied as a
parameter.  `none` models a panic: the only panic on this path is the
`.unwrap()` on `previous_frame_end.take()` when no future is stored.  The
match on the flush result never panics. -/
def finish_frame (st : FrameSyncState) (flush : FlushOutcome) :
    Option FrameSyncState :=
  match st.previous_frame_end with
  | none => none
  | some _ =>
    match flush with
    | .ok f =>
      some { st with previous_frame_end := some (.fenceSignalFuture f) }
    | .outOfDate =>
      some { st with
        recreate_swapchain := true
        previous_frame_end := some FrameEndFuture.now }
    | .other e =>
      some { st with
        log := st.log ++ [e]
        previous_frame_end := some FrameEndFuture.now }

/-! ## G-buffer attachments, framebuffers and swapchain rebuild
(`renderer/deferred.rs`) -/

/-- A pixel extent (`[u32; 2]` / `image_extent`). -/
structure Extent where
  width : Nat
  height : Nat
deriving DecidableEq, Repr

/-- The `vulkano::format::Format` values used by the renderer. -/
inductive ImageFormat where
  | a2b10g10r10UnormPack32
  | r16g16b16a16Sfloat
  | d16Unorm
  | b8g8r8a8Srgb
  | r8g8b8a8Srgb
deriving DecidableEq, Repr

/-- How an `AttachmentImage` is created (`transient`,
`transient_input_attachment` or `sampled`). -/
inductive AttachmentUsage where
  | transient
  | transientInput
  | sampled
deriving DecidableEq, Repr

/-- An `ImageView<AttachmentImage>`: its allocation extent, format and the
constructor used. -/
structure AttachmentImage where
  extent : Extent
  format : ImageFormat
  usage : AttachmentUsage
deriving DecidableEq, Repr

/-- A view bound into a framebuffer: either a swapchain image's own view or
one of the allocated attachment images. -/
inductive BoundView where
  | swapchainView (extent : Extent) (format : ImageFormat)
  | attachmentView (img : AttachmentImage)
deriving DecidableEq, Repr

/-- The pixel extent of a bound view. -/
def BoundView.extent : BoundView → Extent
  | .swapchainView e _ => e
  | .attachmentView img => img.extent

/-- A `Framebuffer`: the ordered list of views passed in
`FramebufferCreateInfo::attachments`. -/
structure FramebufferModel where
  attachments : List BoundView
deriving DecidableEq, Repr

/-- The `Viewport` fields the rebuild code mutates. -/
structure ViewportModel where
  dimensions : Extent
deriving DecidableEq, Repr

/-- `window_size_dependent_setup` (deferred.rs lines 423-491): takes the
swapchain images (modelled by their extents) and the swapchain image format,
reads `images[0]`'s dimensions (`none` models the panic on an empty image
list), allocates the depth/albedo/normal/position attachments at those
dimensions, and builds one framebuffer per swapchain image binding the
image's view plus the four shared attachments. -/
def window_size_dependent_setup (images : List Extent)
    (swapchainFormat : ImageFormat) (viewport : ViewportModel) :
    Option (List FramebufferModel × AttachmentImage × AttachmentImage ×
      AttachmentImage × ViewportModel) :=
  match images with
  | [] => none
  | d :: _ =>
    let dimensions := d
    let viewport2 : ViewportModel := { viewport with dimensions := dimensions }
    let depth_buffer : AttachmentImage :=
      ⟨dimensions, .d16Unorm, .transient⟩
    let color_buffer : AttachmentImage :=
      ⟨dimensions, .a2b10g10r10UnormPack32, .transientInput⟩
    let normal_buffer : AttachmentImage :=
      ⟨dimensions, .r16g16b16a16Sfloat, .transientInput⟩
    let position_buffer : AttachmentImage :=
      ⟨dimensions, .r16g16b16a16Sfloat, .transientInput⟩
    let framebuffers := images.map fun image =>
      FramebufferModel.mk
        [BoundView.swapchainView image swapchainFormat,
         BoundView.attachmentView color_buffer,
         BoundView.attachmentView normal_buffer,
         BoundView.attachmentView position_buffer,
         BoundView.attachmentView depth_buffer]
    some (framebuffers, color_buffer, normal_buffer, position_buffer,
      viewport2)

/-- The swapchain state relevant to recreation: current image extent,
number of images and image format. -/
structure SwapchainModel where
  extent : Extent
  imageCount : Nat
  format : ImageFormat
deriving DecidableEq, Repr

/-- `vulkano::swapchain::SwapchainCreationError`, reduced to the arm the
code matches on plus a catch-all. -/
inductive SwapchainCreationError where
  | imageExtentNotSupported
  | other
deriving DecidableEq, Repr

/-- Models `Swapchain::recreate` from vulkano: a requested extent with zero
width or height (a minimized surface) is outside the surface's supported
range and fails with `ImageExtentNotSupported`; otherwise a new swapchain
with that extent and the same image count is produced. -/
def swapchainRecreate (sc : SwapchainModel) (newExtent : Extent) :
    Except SwapchainCreationError (SwapchainModel × List Extent) :=
  if newExtent.width = 0 ∨ newExtent.height = 0 then
    .error .imageExtentNotSupported
  else
    .ok ({ sc with extent := newExtent },
      List.replicate sc.imageCount newExtent)

/-- The `System` fields that `handle_recreate_swapchain` touches. -/
structure SystemModel where
  swapchain : SwapchainModel
  recreate_swapchain : Bool
  viewport : ViewportModel
deriving DecidableEq, Repr

/-- The resize-dependent fields of `DeferredRenderPass`. -/
structure RenderTargets where
  deferred_framebuffers : List FramebufferModel
  color_buffer : AttachmentImage
  normal_buffer : AttachmentImage
  position_buffer : AttachmentImage
deriving DecidableEq, Repr

/-- `DeferredRenderPass::handle_recreate_swapchain` (deferred.rs lines
349-376).  `windowExtent` is `surface.window().inner_size()`.  `none` models
the `panic!` on a swapchain-recreation error other than
`ImageExtentNotSupported` (and the unreachable empty-image case inside
`window_size_dependent_setup`). -/
def handle_recreate_swapchain (windowExtent : Extent) (sys : SystemModel)
    (rt : RenderTargets) : Option (SystemModel × RenderTargets) :=
  if sys.recreate_swapchain then
    match swapchainRecreate sys.swapchain windowExtent with
    | .error .imageExtentNotSupported => some (sys, rt)
    | .error .other => none
    | .ok (newSwapchain, newImages) =>
      match window_size_dependent_setup newImages newSwapchain.format
          sys.viewport with
      | none => none
      | some (newFramebuffers, newColor, newNormal, newPosition, newViewport) =>
        some
          ({ sys with
              swapchain := newSwapchain
              viewport := newViewport
              recreate_swapchain := false },
           { deferred_framebuffers := newFramebuffers
             color_buffer := newColor
             normal_buffer := newNormal
             position_buffer := newPosition })
  else
    some (sys, rt)

/-! ## Shadow map render pass (`renderer/shadow_map.rs`) -/

/-- A render pass attachment load operation. -/
inductive LoadOp where
  | clear
deriving DecidableEq, Repr

/-- A render pass attachment store operation. -/
inductive StoreOp where
  | store
  | dontCare
deriving DecidableEq, Repr

/-- One entry of the `attachments:` block of
`ordered_passes_renderpass!`. -/
structure AttachmentDesc where
  format : ImageFormat
  loadOp : LoadOp
  storeOp : StoreOp
deriving DecidableEq, Repr

/-- One entry of the `passes:` block: color attachment indices, the optional
depth/stencil attachment index, and input attachment indices, all indexing
into the attachment list. -/
structure SubpassDesc where
  color : List Nat
  depthStencil : Option Nat
  input : List Nat
deriving DecidableEq, Repr

/-- A render pass description as written in `ordered_passes_renderpass!`. -/
structure RenderPassDesc where
  attachments : List AttachmentDesc
  subpasses : List SubpassDesc
deriving DecidableEq, Repr

/-- The render pass built by `shadow_map::init_render_pass` (shadow_map.rs
lines 36-61): attachment 0 is `final_color` in the swapchain image format
(clear/store), attachment 1 is `depth` in `D16_UNORM` (clear/dont-care);
the single subpass writes `color: [final_color]` with
`depth_stencil: {depth}` and no inputs. -/
def shadow_map_render_pass (swapchainFormat : ImageFormat) : RenderPassDesc :=
  { attachments :=
      [⟨swapchainFormat, .clear, .store⟩,
       ⟨.d16Unorm, .clear, .dontCare⟩]
    subpasses := [⟨[0], some 1, []⟩] }

/-- `shadow_map::image_setup` (shadow_map.rs lines 109-142): allocates a
3000×2000 transient-input color buffer in `B8G8R8A8_SRGB` and a 3000×2000
sampled `D16_UNORM` shadow-map buffer, and binds both into the framebuffer
in that order.  Returns the framebuffer, the shadow-map buffer and the
updated viewport. -/
def shadow_map_image_setup (viewport : ViewportModel) :
    FramebufferModel × AttachmentImage × ViewportModel :=
  let dimensions : Extent := ⟨3000, 2000⟩
  let viewport2 : ViewportModel := { viewport with dimensions := dimensions }
  let color_buffer : AttachmentImage :=
    ⟨dimensions, .b8g8r8a8Srgb, .transientInput⟩
  let shadow_map_buffer : AttachmentImage :=
    ⟨dimensions, .d16Unorm, .sampled⟩
  (FramebufferModel.mk
      [BoundView.attachmentView color_buffer,
       BoundView.attachmentView shadow_map_buffer],
   shadow_map_buffer, viewport2)

/-! ## Mesh, material and texture loading (`mesh.rs`, `texture.rs`) -/

/-- `russimp::texture::DataContent`. -/
inductive DataContent where
  | texel
  | bytes (data : List Nat)
deriving DecidableEq, Repr

/-- The fields of a `russimp` material texture that `load_material` reads. -/
structure AssimpTexture where
  path : String
  achFormatHint : String
  data : Option DataContent
deriving DecidableEq, Repr

/-- A `russimp` material, reduced to the base-color texture slot that
`load_material` inspects (`textures.get(&TextureType::BaseColor)`). -/
structure AssimpMaterial where
  baseColorTextures : Option (List AssimpTexture)
deriving DecidableEq, Repr

/-- Where a loaded `Texture` came from: a PNG file on disk or embedded PNG
bytes. -/
inductive TextureSource where
  | file (path : String)
  | embeddedPng (data : List Nat)
deriving DecidableEq, Repr

/-- The hard-coded fallback texture path in `load_default_texture`
(mesh.rs lines 82-87). -/
def default_texture_path : String :=
  "assets/models/sponza/16011208436118768083.png"

/-- `load_default_texture`: loads the fallback PNG file. -/
def load_default_texture : TextureSource := .file default_texture_path

/-- The descriptor set built by `texture::get_descriptor_set`: it binds the
given texture's image view with a sampler at binding 0. -/
structure DescriptorSetModel where
  texture : TextureSource
deriving DecidableEq, Repr

/-- The `Material` struct of mesh.rs. -/
structure Material where
  uniform_set : Option DescriptorSetModel
deriving DecidableEq, Repr

/-- `load_material` (mesh.rs lines 89-132).  `none` models the panics: an
empty base-color texture list (`first().unwrap()`), a non-PNG embedded
format hint (`assert_eq!`), absent embedded data (`expect`), and texel
data (`panic!`).  When the material has no base-color entry, the default
fallback texture is loaded instead. -/
def load_material (m : AssimpMaterial) (base_dir : String) : Option Material :=
  match m.baseColorTextures with
  | some texs =>
    match texs with
    | [] => none
    | t :: _ =>
      let loaded : Option TextureSource :=
        if t.path ≠ "" then
          some (.file (base_dir ++ t.path))
        else if t.achFormatHint ≠ "png" then
          none
        else
          match t.data with
          | none => none
          | some .texel => none
          | some (.bytes bs) => some (.embeddedPng bs)
      match loaded with
      | none => none
      | some tex => some { uniform_set := some ⟨tex⟩ }
  | none =>
    some { uniform_set := some ⟨load_default_texture⟩ }

/-- One mesh as delivered by `russimp` (`scene.meshes[i]`), with the fields
`load_gltf` reads. -/
structure AssimpMesh where
  vertices : List (ℚ × ℚ × ℚ)
  normals : List (ℚ × ℚ × ℚ)
  faces : List (Nat × Nat × Nat)
  textureCoords : List (Option (List (ℚ × ℚ × ℚ)))
  materialIndex : Nat
deriving DecidableEq, Repr

/-- A loaded `russimp::scene::Scene`, reduced to the fields `load_gltf`
reads. -/
structure SceneModel where
  meshes : List AssimpMesh
  materials : List AssimpMaterial
deriving DecidableEq, Repr

/-- The `MeshBuffer` struct of mesh.rs (GPU buffers modelled by their CPU
contents). -/
structure MeshBuffer where
  vertex_buffer : List (ℚ × ℚ × ℚ)
  normal_buffer : List (ℚ × ℚ × ℚ)
  index_buffer : List Nat
  tex_coord_buffer : List (ℚ × ℚ)
  material : Material
deriving DecidableEq, Repr

/-- The `Mesh` struct of mesh.rs. -/
structure MeshModel where
  mesh_buffers : List MeshBuffer
  materials : List Material
  model_matrix : Mat4 ℚ
deriving DecidableEq, Repr

/-- The per-mesh body of `load_gltf`'s loop: loads the mesh's material
(indexing `scene.materials` with `material_index`, `none` on the `unwrap`
panic for an out-of-range index), converts vertices, normals and faces,
and converts the first texture-coordinate channel (`none` models the panic
when `texture_coords` is empty or its first channel is `None`). -/
def load_mesh_buffer (scene : SceneModel) (base_dir : String)
    (mesh : AssimpMesh) : Option MeshBuffer := do
  let assimpMat ← scene.materials.get? mesh.materialIndex
  let material ← load_material assimpMat base_dir
  let vertices := mesh.vertices
  let normals := mesh.normals
  let indices := mesh.faces.flatMap fun f => [f.1, f.2.1, f.2.2]
  let channel0 ← mesh.textureCoords.head?
  let tcs ← channel0
  let tex_coords := tcs.map fun tc => (tc.1, 1 - tc.2.1)
  some
    { vertex_buffer := vertices
      normal_buffer := normals
      index_buffer := indices
      tex_coord_buffer := tex_coords
      material := material }

/-- The `for mesh in &scene.meshes` loop of `load_gltf`, pushing one
`MeshBuffer` per scene mesh into the `mesh_buffers` vector. -/
def load_mesh_buffers (scene : SceneModel) (base_dir : String) :
    List AssimpMesh → Option (List MeshBuffer)
  | [] => some []
  | m :: rest => do
    let buf ← load_mesh_buffer scene base_dir m
    let bufs ← load_mesh_buffers scene base_dir rest
    some (buf :: bufs)

/-- `load_gltf` (mesh.rs lines 134-236), with the external scene import
supplied as data: the top-level `materials` vector is initialised empty and
never pushed to; one `MeshBuffer` is built per scene mesh; the model matrix
is `Matrix4::from_scale(1.0)`. -/
def load_gltf (scene : SceneModel) (base_dir : String) : Option MeshModel := do
  let materials : List Material := []
  let mesh_buffers ← load_mesh_buffers scene base_dir scene.meshes
  some
    { mesh_buffers := mesh_buffers
      materials := materials
      model_matrix := Mat4.fromScale 1 }

/-! ## Theorems -/

/-- C7: after every `Camera::update()` the stored `world_view` matrix equals
the exact matrix product `view * world` of the matrices stored at that
moment, and hence the per-frame `CameraData` uniform payload built by
`get_uniform_buffer` satisfies `world_view = view * world`. -/
theorem camera_world_view_is_view_mul_world (ops : RealOps α) (c : Camera α)
    (extent : Nat × Nat) (world : Mat4 α) :
    (Camera.update ops c).world_view =
      Mat4.mul (Camera.update ops c).view (Camera.update ops c).world ∧
    (Camera.getUniformBuffer ops c extent world).2.world_view =
      Mat4.mul (Camera.getUniformBuffer ops c extent world).2.view
        (Camera.getUniformBuffer ops c extent world).2.world :=
  ⟨rfl, rfl⟩

/-- C4 (amended): `Camera::update()` computes the projection from a fixed
90° vertical field of view and the current aspect ratio with near/far
planes `(5, 10000)` (free-fly variant), while the fixed-orbit variant in
`main.rs` uses near/far planes `(0.01, 100)`. -/
theorem camera_projection_parameters (ops : RealOps α) (c : Camera α)
    (aspect : α) :
    (Camera.update ops c).proj =
      Mat4.perspective ops (ops.pi / 2) c.aspect_ratio 5 10000 ∧
    mainOrbitProj ops aspect =
      Mat4.perspective ops (ops.pi / 2) aspect (1 / 100) 100 :=
  ⟨rfl, rfl⟩

/-- C4 counterexample: the fixed-orbit projection of `main.rs` is not the
perspective with near/far planes `(0.1, 1000)` claimed by the spec
(evaluated over `ℚ` with the concrete `qOps` interpretation at aspect
ratio 1). -/
theorem camera_orbit_near_far_counterexample :
    mainOrbitProj qOps 1 ≠
      Mat4.perspective qOps (qOps.pi / 2) 1 (1 / 10) 1000 := by
  intro h
  have h23 : (2 * (100 : ℚ) * (1 / 100)) / ((1 / 100) - 100) =
      (2 * (1000 : ℚ) * (1 / 10)) / ((1 / 10) - 1000) :=
    congrArg Mat4.m23 h
  norm_num at h23

/-- C6: for every camera rotation handled with the secondary mouse button
held and the control (roll-lock) modifier released, the camera's `up`
vector afterwards — and still after the next `update()` — is exactly the
world-up unit vector `(0, 1, 0)`. -/
theorem camera_up_snaps_to_world_up (ops : RealOps α) (input : InputState α)
    (c : Camera α) (hheld : input.mouse_held_right = true)
    (hctrl : input.held_control = false) :
    (Camera.handleEvent ops input c).up = Vec3.unitY ∧
    (Camera.update ops (Camera.handleEvent ops input c)).up = Vec3.unitY := by
  constructor
  · simp [Camera.handleEvent, hheld, hctrl]
  · simp [Camera.update, Camera.handleEvent, hheld, hctrl]

/-- C6 witness: a concrete drag (mouse delta `(3, 4)`) with the right
button held and control released, applied to the start camera over `ℚ`. -/
theorem camera_up_snaps_to_world_up_witness :
    (Camera.handleEvent qOps
        ⟨false, false, false, false, false, false, false, false, false,
          true, none, (3, 4)⟩ construct_camera).up = Vec3.unitY ∧
    (Camera.update qOps (Camera.handleEvent qOps
        ⟨false, false, false, false, false, false, false, false, false,
          true, none, (3, 4)⟩ construct_camera)).up = Vec3.unitY :=
  camera_up_snaps_to_world_up qOps _ construct_camera rfl rfl

/-- Invariant behind C8: every camera state reachable from
`construct_camera` satisfies `right = forward × up`. -/
theorem camera_right_invariant (ops : RealOps α) {c : Camera α}
    (h : CameraReachable ops c) :
    c.right = Vec3.cross c.forward c.up := by
  induction h with
  | init => rfl
  | step _ hs ih =>
    cases hs with
    | handle input c =>
      by_cases hm : input.mouse_held_right = true
      · simp [Camera.handleEvent, hm]
      · simpa [Camera.handleEvent, hm] using ih
    | update c =>
      simpa [Camera.update] using ih

/-- C8: for every camera state reachable from `construct_camera` by any
sequence of `handle_event` and `update` calls, the stored `right` vector
equals `forward × up` after every `update()` call. -/
theorem camera_right_is_forward_cross_up (ops : RealOps α) {c : Camera α}
    (h : CameraReachable ops c) :
    (Camera.update ops c).right =
      Vec3.cross (Camera.update ops c).forward (Camera.update ops c).up := by
  simpa [Camera.update] using camera_right_invariant ops h

/-- C8 witness: the state reached by one rotating `handle_event` from the
start camera over `ℚ`, then updated. -/
theorem camera_right_is_forward_cross_up_witness :
    (Camera.update qOps (Camera.handleEvent qOps
        ⟨false, false, false, false, false, false, false, false, false,
          true, none, (3, 4)⟩ construct_camera)).right =
      Vec3.cross
        (Camera.update qOps (Camera.handleEvent qOps
          ⟨false, false, false, false, false, false, false, false, false,
            true, none, (3, 4)⟩ construct_camera)).forward
        (Camera.update qOps (Camera.handleEvent qOps
          ⟨false, false, false, false, false, false, false, false, false,
            true, none, (3, 4)⟩ construct_camera)).up :=
  camera_right_is_forward_cross_up qOps
    (CameraReachable.step CameraReachable.init (CameraStep.handle _ _))

/-- C2: when the end-of-frame flush fails with `FlushError::OutOfDate`,
`finish_frame` sets the recreate-swapchain flag and resets the stored
previous-frame future to the already-signalled placeholder; on any other
flush failure it logs the error and resets to the placeholder, leaving the
flag as it was — in both cases it returns normally (no panic), so the frame
is dropped and the render loop continues. -/
theorem finish_frame_failure_recovery (st : FrameSyncState)
    (f : FrameEndFuture) (h : st.previous_frame_end = some f) :
    finish_frame st .outOfDate =
      some { st with
        recreate_swapchain := true
        previous_frame_end := some FrameEndFuture.now } ∧
    ∀ e : String, finish_frame st (.other e) =
      some { st with
        log := st.log ++ [e]
        previous_frame_end := some FrameEndFuture.now } := by
  unfold finish_frame
  rw [h]
  exact ⟨rfl, fun _ => rfl⟩

/-- C2 witness: a state holding frame 7's fence, hit by an out-of-date
flush and by some other flush error. -/
theorem finish_frame_failure_recovery_witness :
    finish_frame ⟨some (.fenceSignalFuture 7), false, []⟩ .outOfDate =
      some ⟨some FrameEndFuture.now, true, []⟩ ∧
    finish_frame ⟨some (.fenceSignalFuture 7), false, []⟩
        (.other "DeviceLost") =
      some ⟨some FrameEndFuture.now, false, ["DeviceLost"]⟩ :=
  ⟨(finish_frame_failure_recovery ⟨some (.fenceSignalFuture 7), false, []⟩
      (.fenceSignalFuture 7) rfl).1,
   (finish_frame_failure_recovery ⟨some (.fenceSignalFuture 7), false, []⟩
      (.fenceSignalFuture 7) rfl).2 "DeviceLost"⟩

/-- Unfolding equation for `window_size_dependent_setup` on a non-empty
image list (shared by the framebuffer and resize proofs). -/
theorem window_size_dependent_setup_cons (d : Extent) (rest : List Extent)
    (fmt : ImageFormat) (vp : ViewportModel) :
    window_size_dependent_setup (d :: rest) fmt vp =
      some ((d :: rest).map fun image =>
          FramebufferModel.mk
            [BoundView.swapchainView image fmt,
             BoundView.attachmentView ⟨d, .a2b10g10r10UnormPack32, .transientInput⟩,
             BoundView.attachmentView ⟨d, .r16g16b16a16Sfloat, .transientInput⟩,
             BoundView.attachmentView ⟨d, .r16g16b16a16Sfloat, .transientInput⟩,
             BoundView.attachmentView ⟨d, .d16Unorm, .transient⟩],
        ⟨d, .a2b10g10r10UnormPack32, .transientInput⟩,
        ⟨d, .r16g16b16a16Sfloat, .transientInput⟩,
        ⟨d, .r16g16b16a16Sfloat, .transientInput⟩,
        { vp with dimensions := d }) :=
  rfl

/-- C1: whenever `window_size_dependent_setup` succeeds on the swapchain
images (all of which share the swapchain image extent), it produces exactly
one framebuffer per swapchain image, and the albedo, normal and position
attachments — as well as every view bound into every framebuffer, the depth
attachment included — have pixel dimensions equal to that extent. -/
theorem window_size_dependent_setup_invariants (images : List Extent)
    (fmt : ImageFormat) (vp : ViewportModel) (ext : Extent)
    (himg : ∀ e ∈ images, e = ext) (hne : images ≠ []) :
    ∃ fbs cb nb pb vp2,
      window_size_dependent_setup images fmt vp =
        some (fbs, cb, nb, pb, vp2) ∧
      fbs.length = images.length ∧
      cb.extent = ext ∧ nb.extent = ext ∧ pb.extent = ext ∧
      ∀ fb ∈ fbs, ∀ v ∈ fb.attachments, BoundView.extent v = ext := by
  cases images with
  | nil => exact absurd rfl hne
  | cons d rest =>
    have hd : d = ext := himg d (List.mem_cons_self d rest)
    refine ⟨_, _, _, _, _, rfl, ?_, ?_, ?_, ?_, ?_⟩
    · simp [window_size_dependent_setup]
    · simpa [window_size_dependent_setup] using hd
    · simpa [window_size_dependent_setup] using hd
    · simpa [window_size_dependent_setup] using hd
    · intro fb hfb v hv
      simp only [window_size_dependent_setup, List.mem_map] at hfb
      obtain ⟨image, himage, rfl⟩ := hfb
      have hie : image = ext := himg image himage
      simp only [List.mem_cons, List.not_mem_nil, or_false] at hv
      rcases hv with rfl | rfl | rfl | rfl | rfl <;>
        simp [BoundView.extent, hie, hd]

/-- C1 witness: two 800×600 swapchain images. -/
theorem window_size_dependent_setup_invariants_witness :
    ∃ fbs cb nb pb vp2,
      window_size_dependent_setup [⟨800, 600⟩, ⟨800, 600⟩]
          .b8g8r8a8Srgb ⟨⟨0, 0⟩⟩ = some (fbs, cb, nb, pb, vp2) ∧
      fbs.length = ([⟨800, 600⟩, ⟨800, 600⟩] : List Extent).length ∧
      cb.extent = ⟨800, 600⟩ ∧ nb.extent = ⟨800, 600⟩ ∧
      pb.extent = ⟨800, 600⟩ ∧
      ∀ fb ∈ fbs, ∀ v ∈ fb.attachments, BoundView.extent v = ⟨800, 600⟩ :=
  window_size_dependent_setup_invariants [⟨800, 600⟩, ⟨800, 600⟩]
    .b8g8r8a8Srgb ⟨⟨0, 0⟩⟩ ⟨800, 600⟩ (by decide) (by decide)

/-- C3: if swapchain recreation is pending and the requested extent has
zero width or height (minimized surface), `handle_recreate_swapchain`
returns normally without replacing the swapchain, framebuffers or G-buffer
attachments, and the recreate flag stays set; a later call with a non-zero
extent then rebuilds: the flag clears, the swapchain takes the new extent,
the three G-buffer attachments are sized to it, and one framebuffer per
swapchain image is produced. -/
theorem handle_recreate_swapchain_minimized (sys : SystemModel)
    (rt : RenderTargets) (zeroExt validExt : Extent)
    (hflag : sys.recreate_swapchain = true)
    (hzero : zeroExt.width = 0 ∨ zeroExt.height = 0)
    (hw : validExt.width ≠ 0) (hh : validExt.height ≠ 0)
    (hcount : 0 < sys.swapchain.imageCount) :
    handle_recreate_swapchain zeroExt sys rt = some (sys, rt) ∧
    sys.recreate_swapchain = true ∧
    ∃ sys2 rt2,
      handle_recreate_swapchain validExt sys rt = some (sys2, rt2) ∧
      sys2.recreate_swapchain = false ∧
      sys2.swapchain.extent = validExt ∧
      rt2.color_buffer.extent = validExt ∧
      rt2.normal_buffer.extent = validExt ∧
      rt2.position_buffer.extent = validExt ∧
      rt2.deferred_framebuffers.length = sys.swapchain.imageCount := by
  obtain ⟨k, hk⟩ : ∃ k, sys.swapchain.imageCount = k + 1 :=
    ⟨sys.swapchain.imageCount - 1, (Nat.succ_pred_eq_of_pos hcount).symm⟩
  refine ⟨?_, hflag, ?_⟩
  · simp [handle_recreate_swapchain, hflag, swapchainRecreate, hzero]
  · have hrec : swapchainRecreate sys.swapchain validExt =
        .ok ({ sys.swapchain with extent := validExt },
          List.replicate sys.swapchain.imageCount validExt) := by
      simp [swapchainRecreate, hw, hh]
    simp only [handle_recreate_swapchain, hflag, hrec, if_true, hk,
      List.replicate_succ, window_size_dependent_setup_cons]
    exact ⟨_, _, rfl, rfl, rfl, rfl, rfl, rfl, by simp⟩

/-- C3 witness: a pending recreate with three 800×600 swapchain images,
first asked for a 0×0 extent, then for 1920×1080. -/
theorem handle_recreate_swapchain_minimized_witness :
    handle_recreate_swapchain ⟨0, 0⟩
        ⟨⟨⟨800, 600⟩, 3, .b8g8r8a8Srgb⟩, true, ⟨⟨800, 600⟩⟩⟩
        ⟨[], ⟨⟨800, 600⟩, .a2b10g10r10UnormPack32, .transientInput⟩,
          ⟨⟨800, 600⟩, .r16g16b16a16Sfloat, .transientInput⟩,
          ⟨⟨800, 600⟩, .r16g16b16a16Sfloat, .transientInput⟩⟩ =
      some (⟨⟨⟨800, 600⟩, 3, .b8g8r8a8Srgb⟩, true, ⟨⟨800, 600⟩⟩⟩,
        ⟨[], ⟨⟨800, 600⟩, .a2b10g10r10UnormPack32, .transientInput⟩,
          ⟨⟨800, 600⟩, .r16g16b16a16Sfloat, .transientInput⟩,
          ⟨⟨800, 600⟩, .r16g16b16a16Sfloat, .transientInput⟩⟩) ∧
    (⟨⟨⟨800, 600⟩, 3, .b8g8r8a8Srgb⟩, true, ⟨⟨800, 600⟩⟩⟩ :
        SystemModel).recreate_swapchain = true ∧
    ∃ sys2 rt2,
      handle_recreate_swapchain ⟨1920, 1080⟩
          ⟨⟨⟨800, 600⟩, 3, .b8g8r8a8Srgb⟩, true, ⟨⟨800, 600⟩⟩⟩
          ⟨[], ⟨⟨800, 600⟩, .a2b10g10r10UnormPack32, .transientInput⟩,
            ⟨⟨800, 600⟩, .r16g16b16a16Sfloat, .transientInput⟩,
            ⟨⟨800, 600⟩, .r16g16b16a16Sfloat, .transientInput⟩⟩ =
        some (sys2, rt2) ∧
      sys2.recreate_swapchain = false ∧
      sys2.swapchain.extent = ⟨1920, 1080⟩ ∧
      rt2.color_buffer.extent = ⟨1920, 1080⟩ ∧
      rt2.normal_buffer.extent = ⟨1920, 1080⟩ ∧
      rt2.position_buffer.extent = ⟨1920, 1080⟩ ∧
      rt2.deferred_framebuffers.length = 3 :=
  handle_recreate_swapchain_minimized _ _ ⟨0, 0⟩ ⟨1920, 1080⟩ rfl
    (Or.inl rfl) (by decide) (by decide) (by decide)

/-- C5 counterexample: the shadow-map render pass does have exactly one
subpass, but that subpass's color output list is `[final_color]`, not empty
— the pass is not depth-only (evaluated at the swapchain format
`B8G8R8A8_SRGB`). -/
theorem shadow_map_not_depth_only :
    ((shadow_map_render_pass .b8g8r8a8Srgb).subpasses.map
        SubpassDesc.color) = [[0]] ∧
    ([0] : List Nat) ≠ [] := by
  decide

/-- C5 (amended): the shadow-map render pass is a single-subpass pass whose
subpass writes a depth attachment (`D16_UNORM`) that `image_setup` allocates
at the fixed resolution 3000×2000 with sampled usage (so the lighting
subpass can sample it) — but the subpass additionally writes one color
attachment in the swapchain image format, so it is not depth-only. -/
theorem shadow_map_render_pass_structure (fmt : ImageFormat)
    (vp : ViewportModel) :
    (shadow_map_render_pass fmt).subpasses =
      [⟨[0], some 1, []⟩] ∧
    (shadow_map_render_pass fmt).attachments =
      [⟨fmt, .clear, .store⟩, ⟨.d16Unorm, .clear, .dontCare⟩] ∧
    (shadow_map_image_setup vp).2.1 =
      ⟨⟨3000, 2000⟩, .d16Unorm, .sampled⟩ :=
  ⟨rfl, rfl, rfl⟩

/-- C9: for every imported material with no base-color texture entry,
`load_material` succeeds and produces a `Material` whose `uniform_set` is
`Some` descriptor set referencing the default fallback texture file — never
`None` and never an absent binding. -/
theorem load_material_default_fallback (m : AssimpMaterial) (bd : String)
    (h : m.baseColorTextures = none) :
    load_material m bd =
      some { uniform_set := some ⟨TextureSource.file default_texture_path⟩ } := by
  unfold load_material
  rw [h]
  rfl

/-- C9 witness: a material with no base-color texture slot. -/
theorem load_material_default_fallback_witness :
    load_material ⟨none⟩ "assets/models/sponza/" =
      some { uniform_set := some ⟨TextureSource.file default_texture_path⟩ } :=
  load_material_default_fallback ⟨none⟩ "assets/models/sponza/" rfl

/-- Length preservation for the mesh-buffer loading loop (helper for
C10). -/
theorem load_mesh_buffers_length (scene : SceneModel) (bd : String) :
    ∀ (ms : List AssimpMesh) (bufs : List MeshBuffer),
      load_mesh_buffers scene bd ms = some bufs →
      bufs.length = ms.length := by
  intro ms
  induction ms with
  | nil =>
    intro bufs h
    simp only [load_mesh_buffers, Option.some.injEq] at h
    simp [h.symm]
  | cons m rest ih =>
    intro bufs h
    simp only [load_mesh_buffers, Option.bind_eq_bind, Option.bind_eq_some] at h
    obtain ⟨buf, _, bufs2, hbufs2, hcons⟩ := h
    have := ih bufs2 hbufs2
    cases Option.some.inj hcons
    simp [this]

/-- C10: every `Mesh` that `load_gltf` returns has an empty top-level
`materials` vector, regardless of the source scene's materials; all loaded
materials live only in the `material` fields of the `mesh_buffers`, of
which there is exactly one per scene mesh. -/
theorem load_gltf_materials_empty (scene : SceneModel) (bd : String)
    (mesh : MeshModel) (h : load_gltf scene bd = some mesh) :
    mesh.materials = [] ∧
    mesh.mesh_buffers.length = scene.meshes.length := by
  simp only [load_gltf, Option.bind_eq_bind, Option.bind_eq_some,
    Option.some.injEq] at h
  obtain ⟨bufs, hbufs, hmesh⟩ := h
  have hlen := load_mesh_buffers_length scene bd scene.meshes bufs hbufs
  simp [hmesh.symm, hlen]

/-- C10 witness: a one-mesh scene whose single material has no base-color
texture loads to a mesh with one mesh buffer and an empty top-level
material list. -/
theorem load_gltf_materials_empty_witness :
    load_gltf
        ⟨[⟨[(0, 0, 0), (1, 0, 0), (0, 1, 0)], [(0, 0, 1)], [(0, 1, 2)],
           [some [(0, 0, 0), (1, 0, 0), (0, 1, 0)]], 0⟩],
         [⟨none⟩]⟩ "dir/" =
      some ⟨[⟨[(0, 0, 0), (1, 0, 0), (0, 1, 0)], [(0, 0, 1)], [0, 1, 2],
              [(0, 1 - 0), (1, 1 - 0), (0, 1 - 1)],
              ⟨some ⟨TextureSource.file default_texture_path⟩⟩⟩],
            [], Mat4.fromScale 1⟩ ∧
    ([] : List Material) = [] ∧
    ([⟨[(0, 0, 0), (1, 0, 0), (0, 1, 0)], [(0, 0, 1)], [0, 1, 2],
        [(0, 1 - 0), (1, 1 - 0), (0, 1 - 1)],
        ⟨some ⟨TextureSource.file default_texture_path⟩⟩⟩] :
      List MeshBuffer).length = 1 := by
  have h := load_gltf_materials_empty
    ⟨[⟨[(0, 0, 0), (1, 0, 0), (0, 1, 0)], [(0, 0, 1)], [(0, 1, 2)],
       [some [(0, 0, 0), (1, 0, 0), (0, 1, 0)]], 0⟩],
     [⟨none⟩]⟩ "dir/"
    ⟨[⟨[(0, 0, 0), (1, 0, 0), (0, 1, 0)], [(0, 0, 1)], [0, 1, 2],
        [(0, 1 - 0), (1, 1 - 0), (0, 1 - 1)],
        ⟨some ⟨TextureSource.file default_texture_path⟩⟩⟩],
      [], Mat4.fromScale 1⟩ rfl
  exact ⟨rfl, h.1, h.2⟩

end Atlas
